import Mathlib

/-!
Shallow embedding of the experiment monitoring decision engine and the
monitoring lifecycle step of `orchestrator/worker_monitor.py`
(class `MonitoringWorker`), together with the interface boundaries it
uses (`integrations/posthog.py` metric counts, `memory/chroma_store.py`
lookup, `integrations/slack.py` notification).

Modelling conventions:
* Python ints are `Int`, Python floats arising from statistics are `ℚ`
  (all decision thresholds and rates in the source are exact decimals).
* A Python call that may raise is an `Except String` value; a
  `try/except` block is a `match` on that value.
* The NumPy Beta sampler `np.random.beta(a, b, sims)` is modelled by an
  explicit oracle: the list of sampled values is a parameter.  The only
  behaviour of the sampler the code depends on is (a) it raises
  `ValueError` when a shape parameter is not positive, and (b) otherwise
  it returns the vector of draws; both are reflected in `betaSamples`.
* External effects (store write, Slack notification, queue publish,
  sleep) are recorded in effect structures rather than performed.
-/

namespace MonitoringWorker

/-- The experiment spec dictionary as consumed by `analyze_experiment`:
only the keys the engine reads, each optional because the code accesses
them with `dict.get` and a default (`min_sample_size` defaults to 2000,
`primary_metric.type` defaults to `"rate"`). -/
structure SpecDict where
  min_sample_size : Option Int
  primary_metric_type : Option String
deriving DecidableEq

/-- The dict returned by `analyze_experiment` / `use_ai_analyst`.
`prob_treatment_better` is present only on the rate-metric success path;
`ai_override` is present (True) only on the advisory override path. -/
structure DecisionResult where
  decision : String
  confidence : ℚ
  sample_size : Int
  reason : String
  prob_treatment_better : Option ℚ
  ai_override : Bool
deriving DecidableEq

/-- `np.random.beta(a, b, sims)`: raises `ValueError` when a shape
parameter is not positive, otherwise returns the sampled vector
(the draws are the oracle parameter). -/
def betaSamples (a b : Int) (draws : List ℚ) : Except String (List ℚ) :=
  if a ≤ 0 ∨ b ≤ 0 then Except.error "ValueError" else Except.ok draws

/-- `float((sb > sa).mean())`: the fraction of indices at which the
second sample vector exceeds the first. -/
def meanGreater (sa sb : List ℚ) : ℚ :=
  (((sa.zip sb).countP fun p => decide (p.1 < p.2) : ℕ) : ℚ) /
    (((sa.zip sb).length : ℕ) : ℚ)

/-- The body of the `try` block of `bayes_prob_better`: Beta-Binomial
posteriors with uniform priors, `Beta(s + 1, n - s + 1)` per arm, then
the empirical fraction of draws where the treatment draw exceeds the
control draw. -/
def bayesBody (suc_a tot_a suc_b tot_b : Int) (draws_a draws_b : List ℚ) :
    Except String ℚ := do
  let sa ← betaSamples (suc_a + 1) ((tot_a - suc_a) + 1) draws_a
  let sb ← betaSamples (suc_b + 1) ((tot_b - suc_b) + 1) draws_b
  pure (meanGreater sa sb)

/-- `MonitoringWorker.bayes_prob_better`: the `try` body, with every
exception caught and turned into the neutral probability `0.5`. -/
def bayes_prob_better (suc_a tot_a suc_b tot_b : Int)
    (draws_a draws_b : List ℚ) : ℚ :=
  match bayesBody suc_a tot_a suc_b tot_b draws_a draws_b with
  | Except.ok p => p
  | Except.error _ => 1/2

/-- `MonitoringWorker.analyze_experiment`.  The fetch
`posthog.get_metric_counts` is the only statement in the `try` block
that can raise, so it enters as an `Except` value; the `except` clause
is the `.error` branch.  The sampling oracle for the Bayesian branch is
passed through. -/
def analyze_experiment (fetch : Except String (Int × Int × Int × Int))
    (spec : SpecDict) (draws_a draws_b : List ℚ) : DecisionResult :=
  match fetch with
  | Except.error e =>
      ⟨"extend", 1/2, 0, "Analysis error: " ++ e, none, false⟩
  | Except.ok (suc_c, tot_c, suc_t, tot_t) =>
      let total_sample := tot_c + tot_t
      let min_sample := spec.min_sample_size.getD 2000
      if total_sample < min_sample then
        ⟨"extend", 1/2, total_sample,
          "Insufficient sample size (" ++ toString total_sample ++ " < " ++
            toString min_sample ++ ")", none, false⟩
      else
        let metric_type := spec.primary_metric_type.getD "rate"
        if metric_type = "rate" then
          let prob_better := bayes_prob_better suc_c tot_c suc_t tot_t draws_a draws_b
          if 95/100 ≤ prob_better then
            ⟨"ship_treatment", prob_better, total_sample,
              "Strong evidence treatment is better", some prob_better, false⟩
          else if prob_better ≤ 5/100 then
            ⟨"ship_control", 1 - prob_better, total_sample,
              "Strong evidence control is better", some prob_better, false⟩
          else
            ⟨"extend", 1/2, total_sample, "Inconclusive results",
              some prob_better, false⟩
        else if metric_type = "mean" then
          let control_rate : ℚ := if 0 < tot_c then (suc_c : ℚ) / (tot_c : ℚ) else 0
          let treatment_rate : ℚ := if 0 < tot_t then (suc_t : ℚ) / (tot_t : ℚ) else 0
          if control_rate * (11/10) < treatment_rate then
            ⟨"ship_treatment", 9/10, total_sample,
              "Treatment shows improvement", none, false⟩
          else if treatment_rate < control_rate * (9/10) then
            ⟨"ship_control", 9/10, total_sample,
              "Treatment shows degradation", none, false⟩
          else
            ⟨"extend", 1/2, total_sample, "No clear difference", none, false⟩
        else
          ⟨"extend", 1/2, total_sample,
            "Unknown metric type: " ++ metric_type, none, false⟩

/-- Python `str.lower()` on the captured decision word, character-wise
over the characters of the string. -/
def strLower (s : String) : String := ⟨s.data.map Char.toLower⟩

/-- The outcome of the three `re.search` calls of `use_ai_analyst` on
the advisory free-text reply: each field is the captured group when the
token was found (`re.search` returns a match object or `None`). -/
structure AIParse where
  decision : Option String
  confidence : Option ℚ
  rationale : Option String
deriving DecidableEq

/-- `MonitoringWorker.use_ai_analyst`: the advisory call and response
parse enter as an `Except` of the three optional captures (any raised
exception along that path is the `.error` branch, which the code
catches and answers with the numeric result).  A parsed decision word is
lowercased and installed, with the parsed confidence (default 0.8 when
the CONFIDENCE token is absent) and rationale (default string), only
when the advisory confidence strictly exceeds the numeric one. -/
def use_ai_analyst (advisory : Except String AIParse)
    (analysis_result : DecisionResult) : DecisionResult :=
  match advisory with
  | Except.error _ => analysis_result
  | Except.ok m =>
      match m.decision with
      | none => analysis_result
      | some d =>
          let ai_decision := strLower d
          let ai_confidence := m.confidence.getD (8/10)
          let ai_rationale := m.rationale.getD "AI analysis"
          if analysis_result.confidence < ai_confidence then
            ⟨ai_decision, ai_confidence, analysis_result.sample_size,
              "AI override: " ++ ai_rationale, none, true⟩
          else
            analysis_result

/-- The outcome dict persisted by `handle_experiment_decision`
(timestamp omitted: it is wall-clock noise with no logic on it). -/
structure OutcomeRecord where
  decision : String
  confidence : ℚ
  final_sample_size : Int
  reason : String
deriving DecidableEq

/-- One hit of `memory.retrieve_similar_experiments`: the orchestrator
reads only its `metadata` dict, which it treats as the spec. -/
structure MemoryEntry where
  metadata : SpecDict
deriving DecidableEq

/-- Effects of `handle_experiment_decision`: the store write (performed
only when the memory lookup for the key is non-empty) and the Slack
notification `post_experiment_decision(key, decision, confidence,
sample_size)` (attempted unconditionally; its failure is caught and
logged). -/
structure HandleEffects where
  storedOutcome : Option OutcomeRecord
  slackNotified : Option (String × String × ℚ × Int)
deriving DecidableEq

/-- `MonitoringWorker.handle_experiment_decision`, as an effect record. -/
def handle_experiment_decision (memoryHits : List MemoryEntry)
    (experiment_key decision : String) (confidence : ℚ) (sample_size : Int)
    (reason : String) : HandleEffects :=
  { storedOutcome :=
      if memoryHits.isEmpty then none
      else some ⟨decision, confidence, sample_size, reason⟩
    slackNotified := some (experiment_key, decision, confidence, sample_size) }

/-- `self.monitoring_interval = 600` (seconds). -/
def monitoring_interval : Nat := 600

/-- Effects of one `on_monitor_experiment` tick: the decision handling
(absent when the message is dropped for a missing spec), the
`asyncio.sleep` duration, and the continuation publish as
`(routing_key, experiment_key)`. -/
structure MonitorEffects where
  handled : Option HandleEffects
  sleptSeconds : Option Nat
  published : Option (String × String)
deriving DecidableEq

/-- The effective decision of one monitoring tick: numeric analysis
followed by the advisory review. -/
def monitorFinalResult (spec : SpecDict)
    (fetch : Except String (Int × Int × Int × Int)) (draws_a draws_b : List ℚ)
    (advisory : Except String AIParse) : DecisionResult :=
  use_ai_analyst advisory (analyze_experiment fetch spec draws_a draws_b)

/-- `MonitoringWorker.on_monitor_experiment` for a well-formed payload,
as an effect record.  The memory lookup for the key is a parameter and
is assumed stable within the tick (the code queries it once here and
once inside `handle_experiment_decision`).  When the lookup is empty the
message is dropped; otherwise the first hit provides the spec, the
decision is computed and handled, and only an `"extend"` effective
decision sleeps for `monitoring_interval` seconds and re-publishes the
key to the `exp.monitor` routing key. -/
def on_monitor_experiment (experiment_key : String)
    (memoryHits : List MemoryEntry)
    (fetch : Except String (Int × Int × Int × Int)) (draws_a draws_b : List ℚ)
    (advisory : Except String AIParse) : MonitorEffects :=
  match memoryHits with
  | [] => ⟨none, none, none⟩
  | entry :: rest =>
      let final_result := monitorFinalResult entry.metadata fetch draws_a draws_b advisory
      let h := handle_experiment_decision (entry :: rest) experiment_key
        final_result.decision final_result.confidence final_result.sample_size
        final_result.reason
      if final_result.decision = "extend" then
        ⟨some h, some monitoring_interval, some ("exp.monitor", experiment_key)⟩
      else
        ⟨some h, none, none⟩

end MonitoringWorker

namespace MonitoringWorker

/-- C1: Gate precedence — whenever the summed totals fall below the
the spec value `min_sample_size`, `analyze_experiment` returns `extend` with
confidence 0.5 and the insufficient-sample reason, independently of the
counts (however extreme the rates) and of the sampling oracle (no
statistical test is consulted: the result does not depend on the draws
and carries no `prob_treatment_better`). -/
theorem c1_gate_precedence (suc_c tot_c suc_t tot_t M : Int) (spec : SpecDict)
    (da db : List ℚ) (hmin : spec.min_sample_size = some M)
    (hlt : tot_c + tot_t < M) :
    analyze_experiment (Except.ok (suc_c, tot_c, suc_t, tot_t)) spec da db =
      ⟨"extend", 1/2, tot_c + tot_t,
        "Insufficient sample size (" ++ toString (tot_c + tot_t) ++ " < " ++
          toString M ++ ")", none, false⟩ := by
  simp [analyze_experiment, hmin, hlt]

/-- Witness for C1 at concrete input: counts (10, 50, 11, 50) with
`min_sample_size = 2000`. -/
theorem c1_gate_precedence_witness :
    analyze_experiment (Except.ok (10, 50, 11, 50)) ⟨some 2000, some "rate"⟩ [] [] =
      ⟨"extend", 1/2, 100, "Insufficient sample size (100 < 2000)", none, false⟩ := by
  have h := c1_gate_precedence 10 50 11 50 2000 ⟨some 2000, some "rate"⟩ [] []
    rfl (by norm_num)
  rw [h]
  rfl

/-- C2: Rate-metric decision rule — past the gate, with metric type
`"rate"`, the decision follows the 0.95 / 0.05 thresholds on
`P = bayes_prob_better` with the stated confidences, and the result
always carries `prob_treatment_better = P`. -/
theorem c2_rate_decision_rule (suc_c tot_c suc_t tot_t : Int) (spec : SpecDict)
    (da db : List ℚ)
    (htype : spec.primary_metric_type.getD "rate" = "rate")
    (hgate : spec.min_sample_size.getD 2000 ≤ tot_c + tot_t) :
    (95/100 ≤ bayes_prob_better suc_c tot_c suc_t tot_t da db →
      analyze_experiment (Except.ok (suc_c, tot_c, suc_t, tot_t)) spec da db =
        ⟨"ship_treatment", bayes_prob_better suc_c tot_c suc_t tot_t da db,
          tot_c + tot_t, "Strong evidence treatment is better",
          some (bayes_prob_better suc_c tot_c suc_t tot_t da db), false⟩) ∧
    (bayes_prob_better suc_c tot_c suc_t tot_t da db ≤ 5/100 →
      analyze_experiment (Except.ok (suc_c, tot_c, suc_t, tot_t)) spec da db =
        ⟨"ship_control", 1 - bayes_prob_better suc_c tot_c suc_t tot_t da db,
          tot_c + tot_t, "Strong evidence control is better",
          some (bayes_prob_better suc_c tot_c suc_t tot_t da db), false⟩) ∧
    (5/100 < bayes_prob_better suc_c tot_c suc_t tot_t da db →
      bayes_prob_better suc_c tot_c suc_t tot_t da db < 95/100 →
      analyze_experiment (Except.ok (suc_c, tot_c, suc_t, tot_t)) spec da db =
        ⟨"extend", 1/2, tot_c + tot_t, "Inconclusive results",
          some (bayes_prob_better suc_c tot_c suc_t tot_t da db), false⟩) ∧
    (analyze_experiment (Except.ok (suc_c, tot_c, suc_t, tot_t)) spec da db).prob_treatment_better
      = some (bayes_prob_better suc_c tot_c suc_t tot_t da db) := by
  have hg : ¬ tot_c + tot_t < spec.min_sample_size.getD 2000 := not_lt.mpr hgate
  refine ⟨?_, ?_, ?_, ?_⟩
  · intro h
    simp [analyze_experiment, hg, htype, h]
  · intro h
    have h1 : ¬ (95/100 : ℚ) ≤ bayes_prob_better suc_c tot_c suc_t tot_t da db := by
      intro hc; linarith
    simp [analyze_experiment, hg, htype, h1, h]
  · intro h h2
    have h1 : ¬ (95/100 : ℚ) ≤ bayes_prob_better suc_c tot_c suc_t tot_t da db :=
      not_le.mpr h2
    have h3 : ¬ bayes_prob_better suc_c tot_c suc_t tot_t da db ≤ (5/100 : ℚ) :=
      not_le.mpr h
    simp [analyze_experiment, hg, htype, h1, h3]
  · by_cases h1 : (95/100 : ℚ) ≤ bayes_prob_better suc_c tot_c suc_t tot_t da db
    · simp [analyze_experiment, hg, htype, h1]
    · by_cases h2 : bayes_prob_better suc_c tot_c suc_t tot_t da db ≤ (5/100 : ℚ)
      · simp [analyze_experiment, hg, htype, h1, h2]
      · simp [analyze_experiment, hg, htype, h1, h2]

/-- Witness for C2 at a concrete input: a single draw pair in which the
treatment draw exceeds the control draw gives `P = 1 ≥ 0.95`, hence
`ship_treatment` at confidence 1. -/
theorem c2_rate_decision_rule_witness :
    analyze_experiment (Except.ok (480, 5000, 520, 5000)) ⟨some 2000, some "rate"⟩
        [1/4] [1/2] =
      ⟨"ship_treatment", 1, 10000, "Strong evidence treatment is better",
        some 1, false⟩ := by
  have hp : bayes_prob_better 480 5000 520 5000 [1/4] [1/2] = 1 := by
    have hb : bayesBody 480 5000 520 5000 [1/4] [1/2] = Except.ok 1 := by
      simp [bayesBody, betaSamples, bind, Except.bind, pure, Except.pure, meanGreater]
      norm_num
    unfold bayes_prob_better
    rw [hb]
  have h := (c2_rate_decision_rule 480 5000 520 5000 ⟨some 2000, some "rate"⟩
    [1/4] [1/2] rfl (by norm_num)).1 (by rw [hp]; norm_num)
  rw [h, hp]
  rfl

/-- C7: Bayesian error neutrality — `bayes_prob_better` is a total
function (it can never propagate an exception: the `try` body enters as
an `Except` and both branches are covered); on any failing run of the
body it returns the neutral probability 0.5, and on a succeeding run it
returns the computed probability unchanged. -/
theorem c7_bayes_neutral_on_failure (suc_a tot_a suc_b tot_b : Int)
    (da db : List ℚ) :
    (∀ e, bayesBody suc_a tot_a suc_b tot_b da db = Except.error e →
      bayes_prob_better suc_a tot_a suc_b tot_b da db = 1/2) ∧
    (∀ p, bayesBody suc_a tot_a suc_b tot_b da db = Except.ok p →
      bayes_prob_better suc_a tot_a suc_b tot_b da db = p) := by
  constructor
  · intro e he
    simp [bayes_prob_better, he]
  · intro p hp
    simp [bayes_prob_better, hp]

/-- Witness for C7 at a degenerate concrete input: `suc_a = -2` makes
the first Beta shape parameter nonpositive, the sampler raises, and the
caught failure yields 0.5. -/
theorem c7_bayes_neutral_on_failure_witness :
    bayesBody (-2) 0 1 2 [] [] = Except.error "ValueError" ∧
      bayes_prob_better (-2) 0 1 2 [] [] = 1/2 := by
  refine ⟨by rfl, ?_⟩
  exact (c7_bayes_neutral_on_failure (-2) 0 1 2 [] []).1 "ValueError" (by rfl)

/-- C10: totality of `analyze_experiment` with zeroed sample size on
error — the function is total (every exception inside the `try` body
enters as the `.error` case), and on the error path it reports
`extend`, confidence 0.5, a reason prefixed `Analysis error:`, and
`sample_size = 0` regardless of the error, the spec and the draws. -/
theorem c10_analyze_error_path (e : String) (spec : SpecDict) (da db : List ℚ) :
    analyze_experiment (Except.error e) spec da db =
      ⟨"extend", 1/2, 0, "Analysis error: " ++ e, none, false⟩ :=
  rfl

/-- C6: Advisory override contract — the advisory decision replaces the
numeric one only when the advisory confidence is strictly higher; on a
parse failure (no DECISION token) or a failed advisory call, the
numeric decision stands and no error escapes. -/
theorem c6_advisory_override_contract (advisory : Except String AIParse)
    (r : DecisionResult) :
    (∀ e, advisory = Except.error e → use_ai_analyst advisory r = r) ∧
    (∀ m, advisory = Except.ok m → m.decision = none →
      use_ai_analyst advisory r = r) ∧
    (use_ai_analyst advisory r ≠ r →
      ∃ m d, advisory = Except.ok m ∧ m.decision = some d ∧
        r.confidence < m.confidence.getD (8/10) ∧
        use_ai_analyst advisory r =
          ⟨strLower d, m.confidence.getD (8/10), r.sample_size,
            "AI override: " ++ m.rationale.getD "AI analysis", none, true⟩) := by
  refine ⟨?_, ?_, ?_⟩
  · rintro e rfl
    rfl
  · rintro m rfl hd
    simp [use_ai_analyst, hd]
  · intro hne
    cases advisory with
    | error e => exact absurd rfl hne
    | ok m =>
        cases hd : m.decision with
        | none => exact absurd (by simp [use_ai_analyst, hd]) hne
        | some d =>
            by_cases hc : r.confidence < m.confidence.getD (8/10)
            · exact ⟨m, d, rfl, hd, hc, by simp [use_ai_analyst, hd, hc]⟩
            · exact absurd (by simp [use_ai_analyst, hd, hc]) hne

/-- Witness for C6 at a concrete input: a failed advisory call leaves
the numeric result untouched. -/
theorem c6_advisory_override_contract_witness :
    use_ai_analyst (Except.error "chat timeout")
      ⟨"extend", 1/2, 100, "Inconclusive results", none, false⟩ =
      ⟨"extend", 1/2, 100, "Inconclusive results", none, false⟩ :=
  (c6_advisory_override_contract (Except.error "chat timeout")
    ⟨"extend", 1/2, 100, "Inconclusive results", none, false⟩).1 "chat timeout" rfl

/-- C9: Advisory override validation gap — any reply in which only the
DECISION token was matched (arbitrary decision word `w`, no CONFIDENCE,
no RATIONALE) overrides every numeric result whose confidence is below
the 0.8 default, installing the unvalidated lowercased word as the
effective decision. -/
theorem c9_advisory_unvalidated_override (w : String) (r : DecisionResult)
    (hconf : r.confidence < 8/10) :
    use_ai_analyst (Except.ok ⟨some w, none, none⟩) r =
      ⟨strLower w, 8/10, r.sample_size, "AI override: AI analysis", none, true⟩ := by
  simp [use_ai_analyst, hconf]

/-- Witness for C9 at a concrete input: the word `Deploy_Everywhere`,
outside the allowed decision set, overrides an `extend` at 0.5. -/
theorem c9_advisory_unvalidated_override_witness :
    use_ai_analyst (Except.ok ⟨some "Deploy_Everywhere", none, none⟩)
      ⟨"extend", 1/2, 100, "Inconclusive results", none, false⟩ =
      ⟨"deploy_everywhere", 8/10, 100, "AI override: AI analysis", none, true⟩ := by
  have h := c9_advisory_unvalidated_override "Deploy_Everywhere"
    ⟨"extend", 1/2, 100, "Inconclusive results", none, false⟩ (by norm_num)
  rw [h]
  rfl

end MonitoringWorker

namespace MonitoringWorker

/-- The outcome shape claimed for the mean-metric branch, following the
words of the claim (sequential z-style test): either the below-10-observations
extend with reason `insufficient_data`, or a ship verdict at confidence
0.95, or the inconclusive extend at confidence 0.5.  Stated spec-side to
be compared with what `analyze_experiment` actually does. -/
def claimedMeanOutcome (r : DecisionResult) : Prop :=
  (r.decision = "extend" ∧ r.reason = "insufficient_data") ∨
  (r.decision = "ship_treatment" ∧ r.confidence = 19/20) ∨
  (r.decision = "ship_control" ∧ r.confidence = 19/20) ∨
  (r.decision = "extend" ∧ r.confidence = 1/2)

/-- C3 counterexample: a mean-metric spec passing the gate, counts
(10, 100, 50, 100) — the code returns `ship_treatment` at confidence
0.9 with reason `Treatment shows improvement`, which is none of the
z-style-test outcomes the claim predicts. -/
theorem c3_mean_dispatch_counterexample :
    analyze_experiment (Except.ok (10, 100, 50, 100)) ⟨some 100, some "mean"⟩ [] [] =
      ⟨"ship_treatment", 9/10, 200, "Treatment shows improvement", none, false⟩ ∧
    ¬ claimedMeanOutcome
        (analyze_experiment (Except.ok (10, 100, 50, 100)) ⟨some 100, some "mean"⟩ [] []) := by
  have h : analyze_experiment (Except.ok (10, 100, 50, 100)) ⟨some 100, some "mean"⟩ [] [] =
      ⟨"ship_treatment", 9/10, 200, "Treatment shows improvement", none, false⟩ := by
    simp [analyze_experiment]
    norm_num
  refine ⟨h, ?_⟩
  rw [h]
  simp [claimedMeanOutcome]
  norm_num

/-- C3 amended: on a mean-metric spec past the sample-size gate (with
positive per-variant totals), `analyze_experiment` does not run the
z-style `msprt_test`; it compares success rates computed from the
counts: `ship_treatment` at confidence 0.9 when the treatment rate
exceeds 1.1 times the control rate, `ship_control` at confidence 0.9
when it is below 0.9 times the control rate, and `extend` at confidence
0.5 otherwise. -/
theorem c3_mean_branch_rule (suc_c tot_c suc_t tot_t : Int) (spec : SpecDict)
    (da db : List ℚ)
    (htype : spec.primary_metric_type.getD "rate" = "mean")
    (hgate : spec.min_sample_size.getD 2000 ≤ tot_c + tot_t)
    (hc : 0 < tot_c) (ht : 0 < tot_t) :
    ((suc_c : ℚ) / (tot_c : ℚ) * (11/10) < (suc_t : ℚ) / (tot_t : ℚ) →
      analyze_experiment (Except.ok (suc_c, tot_c, suc_t, tot_t)) spec da db =
        ⟨"ship_treatment", 9/10, tot_c + tot_t, "Treatment shows improvement",
          none, false⟩) ∧
    (¬ (suc_c : ℚ) / (tot_c : ℚ) * (11/10) < (suc_t : ℚ) / (tot_t : ℚ) →
      (suc_t : ℚ) / (tot_t : ℚ) < (suc_c : ℚ) / (tot_c : ℚ) * (9/10) →
      analyze_experiment (Except.ok (suc_c, tot_c, suc_t, tot_t)) spec da db =
        ⟨"ship_control", 9/10, tot_c + tot_t, "Treatment shows degradation",
          none, false⟩) ∧
    (¬ (suc_c : ℚ) / (tot_c : ℚ) * (11/10) < (suc_t : ℚ) / (tot_t : ℚ) →
      ¬ (suc_t : ℚ) / (tot_t : ℚ) < (suc_c : ℚ) / (tot_c : ℚ) * (9/10) →
      analyze_experiment (Except.ok (suc_c, tot_c, suc_t, tot_t)) spec da db =
        ⟨"extend", 1/2, tot_c + tot_t, "No clear difference", none, false⟩) := by
  have hg : ¬ tot_c + tot_t < spec.min_sample_size.getD 2000 := not_lt.mpr hgate
  refine ⟨?_, ?_, ?_⟩
  · intro h
    simp [analyze_experiment, hg, htype, hc, ht, h]
  · intro h1 h2
    simp [analyze_experiment, hg, htype, hc, ht, h1, h2]
  · intro h1 h2
    simp [analyze_experiment, hg, htype, hc, ht, h1, h2]

/-- Witness for C3 amended at a concrete input: counts (10, 100, 50, 100)
fall in the improvement branch. -/
theorem c3_mean_branch_rule_witness :
    analyze_experiment (Except.ok (10, 100, 50, 100)) ⟨some 100, some "mean"⟩ [] [] =
      ⟨"ship_treatment", 9/10, 200, "Treatment shows improvement", none, false⟩ := by
  have h := (c3_mean_branch_rule 10 100 50 100 ⟨some 100, some "mean"⟩ [] []
    rfl (by norm_num) (by norm_num) (by norm_num)).1 (by norm_num)
  rw [h]
  rfl

/-- C4: Monitoring-loop step — on a tick whose memory lookup is
non-empty, if the effective decision is `extend` the orchestrator
persists only a non-terminal (`extend`) outcome, sleeps the fixed
600-second `monitoring_interval`, and re-publishes the same experiment
key to `exp.monitor`; if the effective decision is terminal
(`ship_treatment`, `ship_control` or `stop`) it persists the
OutcomeRecord, attempts the collaborator notification, and neither
sleeps nor re-publishes. -/
theorem c4_monitoring_step (experiment_key : String) (entry : MemoryEntry)
    (rest : List MemoryEntry) (fetch : Except String (Int × Int × Int × Int))
    (da db : List ℚ) (advisory : Except String AIParse)
    (final : DecisionResult)
    (hfinal : final = monitorFinalResult entry.metadata fetch da db advisory) :
    (final.decision = "extend" →
      on_monitor_experiment experiment_key (entry :: rest) fetch da db advisory =
        ⟨some ⟨some ⟨"extend", final.confidence, final.sample_size, final.reason⟩,
            some (experiment_key, "extend", final.confidence, final.sample_size)⟩,
          some monitoring_interval, some ("exp.monitor", experiment_key)⟩) ∧
    (final.decision = "ship_treatment" ∨ final.decision = "ship_control" ∨
        final.decision = "stop" →
      on_monitor_experiment experiment_key (entry :: rest) fetch da db advisory =
        ⟨some ⟨some ⟨final.decision, final.confidence, final.sample_size, final.reason⟩,
            some (experiment_key, final.decision, final.confidence, final.sample_size)⟩,
          none, none⟩) := by
  subst hfinal
  constructor
  · intro hdec
    simp [on_monitor_experiment, handle_experiment_decision, hdec]
  · intro hdec
    have hne : (monitorFinalResult entry.metadata fetch da db advisory).decision ≠ "extend" := by
      rcases hdec with h | h | h <;> rw [h] <;> decide
    simp [on_monitor_experiment, handle_experiment_decision, hne]

/-- Witness for C4 at a concrete input: a failing counts fetch yields an
effective `extend`, and the tick stores the non-terminal outcome, sleeps
600 seconds and re-publishes the key. -/
theorem c4_monitoring_step_witness :
    on_monitor_experiment "exp1" [⟨⟨some 2000, some "rate"⟩⟩]
        (Except.error "posthog down") [] [] (Except.error "no analyst") =
      ⟨some ⟨some ⟨"extend", 1/2, 0, "Analysis error: posthog down"⟩,
          some ("exp1", "extend", 1/2, 0)⟩,
        some 600, some ("exp.monitor", "exp1")⟩ := by
  have h := (c4_monitoring_step "exp1" ⟨⟨some 2000, some "rate"⟩⟩ []
    (Except.error "posthog down") [] [] (Except.error "no analyst")
    (monitorFinalResult ⟨some 2000, some "rate"⟩ (Except.error "posthog down") [] []
      (Except.error "no analyst")) rfl).1 rfl
  rw [h]
  rfl

end MonitoringWorker

namespace MonitoringWorker

/-- Zipping two equal-length constant vectors gives the constant pair
vector. -/
theorem zip_replicate_eq (n : ℕ) (x y : ℚ) :
    (List.replicate n x).zip (List.replicate n y) = List.replicate n (x, y) := by
  induction n with
  | zero => rfl
  | succ k ih => simp [List.replicate_succ, ih]

/-- Counting a predicate over a constant vector. -/
theorem countP_replicate_eq (p : ℚ × ℚ → Bool) (n : ℕ) (x : ℚ × ℚ) :
    (List.replicate n x).countP p = if p x then n else 0 := by
  induction n with
  | zero => simp
  | succ k ih =>
      by_cases h : p x <;> simp [List.replicate_succ, List.countP_cons, ih, h]

/-- Over tie-free pairs, the strictly-greater and strictly-smaller
counts partition the list. -/
theorem countP_lt_total (z : List (ℚ × ℚ)) (h : ∀ p ∈ z, p.1 ≠ p.2) :
    ((z.countP fun p => decide (p.1 < p.2)) +
      (z.countP fun p => decide (p.2 < p.1))) = z.length := by
  induction z with
  | nil => rfl
  | cons a l ih =>
      have ha : a.1 ≠ a.2 := h a (List.mem_cons_self a l)
      have hl : ∀ p ∈ l, p.1 ≠ p.2 := fun p hp => h p (List.mem_cons_of_mem a hp)
      have hil := ih hl
      rcases lt_or_gt_of_ne ha with hlt | hgt
      · have h2 : ¬ a.2 < a.1 := asymm hlt
        simp [List.countP_cons, hlt, h2]
        omega
      · have h2 : ¬ a.1 < a.2 := asymm hgt
        simp [List.countP_cons, hgt, h2]
        omega

/-- On equal-length, non-empty, tie-free sample vectors, the two
empirical exceedance fractions sum to one. -/
theorem meanGreater_swap_sum (da db : List ℚ) (hlen : da.length = db.length)
    (hne : da ≠ []) (hties : ∀ p ∈ da.zip db, p.1 ≠ p.2) :
    meanGreater da db + meanGreater db da = 1 := by
  have hz : db.zip da = (da.zip db).map Prod.swap := (List.zip_swap da db).symm
  have hcount : ((db.zip da).countP fun p => decide (p.1 < p.2)) =
      ((da.zip db).countP fun p => decide (p.2 < p.1)) := by
    rw [hz, List.countP_map]
    rfl
  have hlen2 : ((db.zip da).length : ℚ) = (((da.zip db).length : ℕ) : ℚ) := by
    simp [List.length_zip, hlen, min_comm]
  have hpos : (da.zip db).length ≠ 0 := by
    have h0 : da.length ≠ 0 := fun hh => hne (List.length_eq_zero.mp hh)
    rw [List.length_zip, ← hlen, min_self]
    exact h0
  have hq : ((((da.zip db).countP fun p => decide (p.1 < p.2)) : ℕ) : ℚ) +
      ((((da.zip db).countP fun p => decide (p.2 < p.1)) : ℕ) : ℚ) =
      (((da.zip db).length : ℕ) : ℚ) := by
    exact_mod_cast countP_lt_total (da.zip db) hties
  have hLne : (((da.zip db).length : ℕ) : ℚ) ≠ 0 := by
    exact_mod_cast hpos
  unfold meanGreater
  rw [hcount, hlen2, div_add_div_same, hq, div_self hLne]

/-- C8: Symmetry of the Bayesian test — for in-range counts, evaluated
on a shared realization of the posterior sample vectors (equal length,
non-empty, tie-free, as almost surely for continuous Beta draws),
`bayes_prob_better` of the swapped arms is the exact complement, hence
within the claimed ±0.02 Monte-Carlo tolerance. -/
theorem c8_bayes_symmetry (s_c n_c s_t n_t : Int) (da db : List ℚ)
    (hc0 : 0 ≤ s_c) (hc1 : s_c ≤ n_c) (ht0 : 0 ≤ s_t) (ht1 : s_t ≤ n_t)
    (hlen : da.length = db.length) (hne : da ≠ [])
    (hties : ∀ p ∈ da.zip db, p.1 ≠ p.2) :
    |bayes_prob_better s_c n_c s_t n_t da db -
      (1 - bayes_prob_better s_t n_t s_c n_c db da)| ≤ 2/100 := by
  have hca : ¬ ((s_c + 1 : Int) ≤ 0 ∨ ((n_c - s_c) + 1 : Int) ≤ 0) := by
    push_neg
    omega
  have hta : ¬ ((s_t + 1 : Int) ≤ 0 ∨ ((n_t - s_t) + 1 : Int) ≤ 0) := by
    push_neg
    omega
  have h1 : bayes_prob_better s_c n_c s_t n_t da db = meanGreater da db := by
    simp [bayes_prob_better, bayesBody, betaSamples, hca, hta, bind, Except.bind,
      pure, Except.pure]
  have h2 : bayes_prob_better s_t n_t s_c n_c db da = meanGreater db da := by
    simp [bayes_prob_better, bayesBody, betaSamples, hca, hta, bind, Except.bind,
      pure, Except.pure]
  have hsum := meanGreater_swap_sum da db hlen hne hties
  rw [h1, h2]
  have hzero : meanGreater da db - (1 - meanGreater db da) = 0 := by linarith
  rw [hzero]
  norm_num

/-- Witness for C8 at concrete inputs: counts (1, 2) on both arms and a
concrete tie-free two-draw realization. -/
theorem c8_bayes_symmetry_witness :
    |bayes_prob_better 1 2 1 2 [1/4, 3/4] [1/2, 1/2] -
      (1 - bayes_prob_better 1 2 1 2 [1/2, 1/2] [1/4, 3/4])| ≤ 2/100 := by
  refine c8_bayes_symmetry 1 2 1 2 [1/4, 3/4] [1/2, 1/2] (by norm_num) (by norm_num)
    (by norm_num) (by norm_num) (by simp) (by simp) ?_
  intro p hp
  simp [List.zip] at hp
  rcases hp with rfl | rfl <;> norm_num

end MonitoringWorker

namespace MonitoringWorker

/-- C5 amended: for `min_sample_size = 2000` and counts
(480, 5000, 520, 5000) the gate passes (the reported sample size is
10000 and the rate test runs, always attaching `prob_treatment_better`),
and the decision is `ship_treatment` exactly when the Monte-Carlo
estimate `bayes_prob_better` of these counts reaches 0.95 — which the
counts do not by themselves guarantee (see the counterexample
realization). -/
theorem c5_scenario1_amended (da db : List ℚ) :
    (analyze_experiment (Except.ok (480, 5000, 520, 5000)) ⟨some 2000, some "rate"⟩
        da db).sample_size = 10000 ∧
    (analyze_experiment (Except.ok (480, 5000, 520, 5000)) ⟨some 2000, some "rate"⟩
        da db).prob_treatment_better = some (bayes_prob_better 480 5000 520 5000 da db) ∧
    ((analyze_experiment (Except.ok (480, 5000, 520, 5000)) ⟨some 2000, some "rate"⟩
        da db).decision = "ship_treatment" ↔
      95/100 ≤ bayes_prob_better 480 5000 520 5000 da db) := by
  by_cases h1 : (95/100 : ℚ) ≤ bayes_prob_better 480 5000 520 5000 da db
  · simp [analyze_experiment, h1]
  · by_cases h2 : bayes_prob_better 480 5000 520 5000 da db ≤ (5/100 : ℚ)
    · simp [analyze_experiment, h1, h2]
    · simp [analyze_experiment, h1, h2]

/-- C5 counterexample: a concrete admissible realization of the 20000
posterior draw pairs (all values strictly between 0 and 1) on which the
empirical fraction is exactly 0.5, so the engine answers `extend`, not
the claimed `ship_treatment` with `prob_treatment_better ≥ 0.95`. -/
theorem c5_scenario1_counterexample :
    analyze_experiment (Except.ok (480, 5000, 520, 5000)) ⟨some 2000, some "rate"⟩
        (List.replicate 20000 (1/2))
        (List.replicate 10000 (3/4) ++ List.replicate 10000 (1/4)) =
      ⟨"extend", 1/2, 10000, "Inconclusive results", some (1/2), false⟩ := by
  have hrep : List.replicate 20000 (1/2 : ℚ) =
      List.replicate 10000 (1/2 : ℚ) ++ List.replicate 10000 (1/2 : ℚ) := by
    rw [← List.replicate_add]
  have hmean : meanGreater (List.replicate 20000 (1/2 : ℚ))
      (List.replicate 10000 (3/4 : ℚ) ++ List.replicate 10000 (1/4 : ℚ)) = 1/2 := by
    unfold meanGreater
    rw [hrep, List.zip_append (by rw [List.length_replicate, List.length_replicate]),
      zip_replicate_eq, zip_replicate_eq, List.countP_append, countP_replicate_eq,
      countP_replicate_eq, List.length_append, List.length_replicate,
      List.length_replicate]
    norm_num
  have hbody : ∀ A B : List ℚ, bayesBody 480 5000 520 5000 A B =
      Except.ok (meanGreater A B) := by
    intro A B
    simp [bayesBody, betaSamples, bind, Except.bind, pure, Except.pure]
  have hb : bayes_prob_better 480 5000 520 5000 (List.replicate 20000 (1/2))
      (List.replicate 10000 (3/4) ++ List.replicate 10000 (1/4)) = 1/2 := by
    unfold bayes_prob_better
    rw [hbody, hmean]
  have hana : ∀ A B : List ℚ, bayes_prob_better 480 5000 520 5000 A B = 1/2 →
      analyze_experiment (Except.ok (480, 5000, 520, 5000)) ⟨some 2000, some "rate"⟩
        A B = ⟨"extend", 1/2, 10000, "Inconclusive results", some (1/2), false⟩ := by
    intro A B hb2
    simp [analyze_experiment, hb2]
    norm_num
  exact hana _ _ hb

end MonitoringWorker
